import Mathlib

/-!
Shallow embedding of `src/devtools/DebuggerAttachEventController.ts`.

The file models, in order:
* the `AttachPermission` and `BinaryTransition` enums and the
  `PermissionSubject` / `CounterSubject` operations;
* the `BinaryTransitionSubject.transition` algorithm (guard, intermediate
  state, and the completion / error reconciliation of lines 411-441),
  with in-flight asynchronous actions represented explicitly as a list of
  pending transition descriptors;
* the orchestration performed in the `DebuggerAttachEventController`
  constructor: the attachment-governing subscription (Rule A), the
  `onDebuggerDetach$` handler, and the web-audio-event-governing
  subscription (Rule C);
* the `sendCommand` pipeline (`filter` / `take(1)` / `exhaustMap` /
  `finalize`) and its effect on the attach interest counter.

Concurrency model: per the design's single-threaded reactive semantics,
each external stimulus (a mutation verb, an external detach notification,
or the completion of one in-flight asynchronous action) is processed
atomically: the subject mutation happens, and then the governing policy
subscriptions react to the resulting snapshot until quiescence.  The
policy rules are idempotent, so one pass of Rule A followed by Rule C
reaches quiescence.
-/

/-- Permission enum from the source (`AttachPermission`, lines 43-63). -/
inductive AttachPermission
  | UNKNOWN
  | TEMPORARY
  | REJECTED
deriving DecidableEq

/-- Transition enum from the source (`BinaryTransition`, lines 69-74). -/
inductive BinaryTransition
  | DEACTIVATING
  | IS_INACTIVE
  | ACTIVATING
  | IS_ACTIVE
deriving DecidableEq

/-- Model of a JavaScript error value flowing into `catchError`: the
`message` property may be absent (`Option.none`), as permitted for
`chrome.runtime.lastError`. -/
structure JsError where
  message : Option String
deriving DecidableEq

/-- `PermissionSubject.grantTemporary` (lines 334-338).  Returns the new
value together with whether `next` was called (`BehaviorSubject` emits only
when the guard passes). -/
def grantTemporary (p : AttachPermission) : AttachPermission × Bool :=
  if p = AttachPermission.UNKNOWN then (AttachPermission.TEMPORARY, true) else (p, false)

/-- `PermissionSubject.reject` (lines 343-347).  Returns the new value
together with whether `next` was called. -/
def rejectPermission (p : AttachPermission) : AttachPermission × Bool :=
  if p ≠ AttachPermission.REJECTED then (AttachPermission.REJECTED, true) else (p, false)

/-- An operation on the `PermissionSubject` public surface. -/
inductive PermOp
  | grant
  | reject
deriving DecidableEq

/-- Apply one permission operation to the current value. -/
def applyPermOp (p : AttachPermission) (op : PermOp) : AttachPermission :=
  match op with
  | PermOp.grant => (grantTemporary p).1
  | PermOp.reject => (rejectPermission p).1

/-- Apply a sequence of permission operations. -/
def runPermOps (ops : List PermOp) (p : AttachPermission) : AttachPermission :=
  ops.foldl applyPermOp p

/-- `CounterSubject.increment` (lines 465-467). -/
def counterIncrement (v : Int) : Int := v + 1

/-- `CounterSubject.decrement` (lines 472-474). -/
def counterDecrement (v : Int) : Int := v - 1

/-- `BinaryTransitionDescription` (lines 353-367).  The `action` delegate is
not stored here; an in-flight action is represented by keeping its
description in a pending list until its completion event is processed. -/
structure BinaryTransitionDescription where
  beginningState : BinaryTransition
  intermediateState : BinaryTransition
  successState : BinaryTransition
  errorState : BinaryTransition
deriving DecidableEq

/-- The `activateTransition` descriptor built in the
`BinaryTransitionSubject` constructor (lines 389-395). -/
def activateTransition : BinaryTransitionDescription :=
  { beginningState := BinaryTransition.IS_INACTIVE
    intermediateState := BinaryTransition.ACTIVATING
    successState := BinaryTransition.IS_ACTIVE
    errorState := BinaryTransition.IS_INACTIVE }

/-- The `deactivateTransition` descriptor built in the
`BinaryTransitionSubject` constructor (lines 396-402). -/
def deactivateTransition : BinaryTransitionDescription :=
  { beginningState := BinaryTransition.IS_ACTIVE
    intermediateState := BinaryTransition.DEACTIVATING
    successState := BinaryTransition.IS_INACTIVE
    errorState := BinaryTransition.IS_INACTIVE }

/-- Outcome of one asynchronous `action()` call: it either completes or
errors with some error value. -/
inductive ActionOutcome
  | success
  | failure (err : JsError)
deriving DecidableEq

/-- The literal checked by `err.message.startsWith(...)` at line 426. -/
def alreadyAttachedMessage : String := "Another debugger is already attached"

/-- Model of the JavaScript `m.startsWith(alreadyAttachedMessage)` test
(character-prefix comparison). -/
def messageIndicatesAlreadyAttached (m : String) : Bool :=
  alreadyAttachedMessage.data.isPrefixOf m.data

/-- Reconciliation of an action's outcome against the subject value
observed at completion time: the `defer` block (lines 416-420) for success
and the `catchError` block (lines 422-437) for failure.

Result convention:
* `none` — the handler itself threw before producing a value: for a
  failure whose error value has no `message` property,
  `err.message.startsWith` raises a `TypeError` inside `catchError`, so no
  state is emitted and the error escapes the subscription;
* `some none` — the handler returned `EMPTY`: nothing is emitted;
* `some (some st)` — the handler emitted `st`, which `next` stores. -/
def completeEmission (d : BinaryTransitionDescription) (o : ActionOutcome)
    (cur : BinaryTransition) : Option (Option BinaryTransition) :=
  match o with
  | ActionOutcome.success =>
      some (if cur = d.intermediateState then some d.successState else none)
  | ActionOutcome.failure err =>
      match err.message with
      | none => none
      | some m =>
          if messageIndicatesAlreadyAttached m then
            some (if cur = d.intermediateState then some d.successState else none)
          else
            some (some (if cur = d.intermediateState then d.errorState else d.beginningState))

/-- The synchronous head of `BinaryTransitionSubject.transition`
(lines 411-415): if the current value equals `beginningState`, the subject
moves to `intermediateState` and the description's action starts (it is
appended to the pending list); otherwise nothing happens. -/
def transitionStart (d : BinaryTransitionDescription) (cur : BinaryTransition)
    (pending : List BinaryTransitionDescription) :
    BinaryTransition × List BinaryTransitionDescription :=
  if cur = d.beginningState then (d.intermediateState, pending ++ [d]) else (cur, pending)

/-- The five state sources owned by the controller (the `debuggerSubject`
record of lines 115-137), plus the in-flight asynchronous actions of each
`BinaryTransitionSubject`.  Field names follow `DebuggerAttachEventState`
(lines 76-82). -/
structure SysState where
  permission : AttachPermission
  attachInterest : Int
  attachState : BinaryTransition
  webAudioEventInterest : Int
  webAudioEventState : BinaryTransition
  pendingAttach : List BinaryTransitionDescription
  pendingWebAudio : List BinaryTransitionDescription
deriving DecidableEq

/-- Which verb the attachment-governing subscription invokes on the attach
transition subject. -/
inductive AttachVerb
  | activate
  | deactivate
deriving DecidableEq

/-- The branch condition of the attachment-governing subscription
(lines 165-179): `activate()` when permission is TEMPORARY and
`attachInterest > 0`, otherwise `deactivate()`. -/
def governAttach (s : SysState) : AttachVerb :=
  if s.permission = AttachPermission.TEMPORARY ∧ 0 < s.attachInterest then
    AttachVerb.activate
  else
    AttachVerb.deactivate

/-- Rule A: the attachment-governing subscription (lines 165-179) applied
to the current state. -/
def ruleA (s : SysState) : SysState :=
  match governAttach s with
  | AttachVerb.activate =>
      { s with
        attachState := (transitionStart activateTransition s.attachState s.pendingAttach).1
        pendingAttach := (transitionStart activateTransition s.attachState s.pendingAttach).2 }
  | AttachVerb.deactivate =>
      { s with
        attachState := (transitionStart deactivateTransition s.attachState s.pendingAttach).1
        pendingAttach := (transitionStart deactivateTransition s.attachState s.pendingAttach).2 }

/-- Rule C: the web-audio-event-governing subscription (lines 198-223)
applied to the current state. -/
def ruleC (s : SysState) : SysState :=
  if s.attachState = BinaryTransition.IS_ACTIVE ∧ 0 < s.webAudioEventInterest then
    { s with
      webAudioEventState :=
        (transitionStart activateTransition s.webAudioEventState s.pendingWebAudio).1
      pendingWebAudio :=
        (transitionStart activateTransition s.webAudioEventState s.pendingWebAudio).2 }
  else if s.attachState = BinaryTransition.IS_ACTIVE then
    { s with
      webAudioEventState :=
        (transitionStart deactivateTransition s.webAudioEventState s.pendingWebAudio).1
      pendingWebAudio :=
        (transitionStart deactivateTransition s.webAudioEventState s.pendingWebAudio).2 }
  else
    { s with webAudioEventState := BinaryTransition.IS_INACTIVE }

/-- One quiescent pass of the two standing policy subscriptions over the
combined snapshot.  Both rules are idempotent, so a single pass of Rule A
followed by Rule C reaches the quiescent state the reactive loop settles
into after any stimulus. -/
def applyRules (s : SysState) : SysState := ruleC (ruleA s)

/-- The `onDebuggerDetach$` subscription (lines 182-195): reject
permission exactly for the `canceled_by_user` reason, then force the
attach subject to `IS_INACTIVE`. -/
def onDetachHandler (reason : String) (s : SysState) : SysState :=
  let s1 :=
    if reason = "canceled_by_user" then
      { s with permission := (rejectPermission s.permission).1 }
    else s
  { s1 with attachState := BinaryTransition.IS_INACTIVE }

/-- External stimuli of the system: the mutation verbs, an external
detach notification, and the completion (with some outcome) of the
`i`-th in-flight action of either transition subject. -/
inductive Event
  | grant
  | reject
  | incAttach
  | decAttach
  | incWebAudio
  | decWebAudio
  | detach (reason : String)
  | completeAttach (i : Nat) (o : ActionOutcome)
  | completeWebAudio (i : Nat) (o : ActionOutcome)

/-- Immediate effect of one stimulus on the subjects, before the policy
subscriptions react.  A completion removes its pending action and applies
`completeEmission` to the value observed at completion time; when the
emission is `none` (handler crash) or `some none` (`EMPTY`) the subject
value is unchanged. -/
def applyEvent (e : Event) (s : SysState) : SysState :=
  match e with
  | Event.grant => { s with permission := (grantTemporary s.permission).1 }
  | Event.reject => { s with permission := (rejectPermission s.permission).1 }
  | Event.incAttach => { s with attachInterest := counterIncrement s.attachInterest }
  | Event.decAttach => { s with attachInterest := counterDecrement s.attachInterest }
  | Event.incWebAudio =>
      { s with webAudioEventInterest := counterIncrement s.webAudioEventInterest }
  | Event.decWebAudio =>
      { s with webAudioEventInterest := counterDecrement s.webAudioEventInterest }
  | Event.detach reason => onDetachHandler reason s
  | Event.completeAttach i o =>
      match s.pendingAttach[i]? with
      | none => s
      | some d =>
          match completeEmission d o s.attachState with
          | some (some st) =>
              { s with attachState := st, pendingAttach := s.pendingAttach.eraseIdx i }
          | _ => { s with pendingAttach := s.pendingAttach.eraseIdx i }
  | Event.completeWebAudio i o =>
      match s.pendingWebAudio[i]? with
      | none => s
      | some d =>
          match completeEmission d o s.webAudioEventState with
          | some (some st) =>
              { s with
                webAudioEventState := st
                pendingWebAudio := s.pendingWebAudio.eraseIdx i }
          | _ => { s with pendingWebAudio := s.pendingWebAudio.eraseIdx i }

/-- One atomic step: the stimulus followed by the policy reactions. -/
def stepEvent (e : Event) (s : SysState) : SysState := applyRules (applyEvent e s)

/-- Subject values at construction (lines 115-137): permission UNKNOWN,
both counters 0, both transition subjects `IS_INACTIVE`, nothing in
flight. -/
def sysStart : SysState :=
  { permission := AttachPermission.UNKNOWN
    attachInterest := 0
    attachState := BinaryTransition.IS_INACTIVE
    webAudioEventInterest := 0
    webAudioEventState := BinaryTransition.IS_INACTIVE
    pendingAttach := []
    pendingWebAudio := [] }

/-- State after construction: `combineLatest` delivers the initial
snapshot to the policy subscriptions as soon as they subscribe. -/
def initSysState : SysState := applyRules sysStart

/-- Run a sequence of stimuli from the initial state. -/
def runEvents (es : List Event) : SysState :=
  es.foldl (fun s e => stepEvent e s) initSysState

/-- The predicate of the `filter` operator in `sendCommand` (line 234). -/
def isActiveState (st : BinaryTransition) : Bool := st == BinaryTransition.IS_ACTIVE

/-- The values reaching `exhaustMap` in one `sendCommand` subscription
(lines 233-236): the subscription's view of `attachState$` piped through
`filter(state => state === IS_ACTIVE)` and `take(1)`. -/
def sendCommandPipe (states : List BinaryTransition) : List BinaryTransition :=
  (states.filter isActiveState).take 1

/-- How many times one `sendCommand` subscription runs its
`sendCommand({tabId}, method)` action: `exhaustMap` starts its inner
observable once per value it receives, and since `take(1)` delivers at
most one value, `exhaustMap` never discards anything within the
subscription. -/
def sendCommandRuns (states : List BinaryTransition) : Nat :=
  (sendCommandPipe states).length

/-- Action counts for several concurrently pending `sendCommand` calls.
`emissions` is the sequence of `attachState$` values over time (the
`BehaviorSubject` replays the value current at subscription, so a call
subscribing at position `i` sees `emissions.drop i`).  Each call pipes its
own fresh observable; the calls share nothing. -/
def pendingCallRuns (emissions : List BinaryTransition) (subscribedAt : List Nat) :
    List Nat :=
  subscribedAt.map (fun i => sendCommandRuns (emissions.drop i))

/-- How a `sendCommand` subscription terminates.  `finalize` (line 237)
runs its callback on completion, on error, and on unsubscription alike. -/
inductive SettleKind
  | completed
  | erred
  | unsubscribed
deriving DecidableEq

/-- Whether the `finalize(() => this.attachInterest$.decrement())` callback
runs for a given terminal event: it runs for every kind. -/
def finalizeRuns (_ : SettleKind) : Bool := true

/-- Interest-counter events of the `sendCommand` lifecycle: the eager
`this.attachInterest$.increment()` at line 232 when the call is issued,
and the settlement of the call's subscription. -/
inductive CmdEvent
  | issue
  | settle (k : SettleKind)
deriving DecidableEq

/-- Recognize an issue event. -/
def isIssue : CmdEvent → Bool
  | CmdEvent.issue => true
  | CmdEvent.settle _ => false

/-- Effect of one lifecycle event on the attach interest counter. -/
def interestStep (v : Int) (e : CmdEvent) : Int :=
  match e with
  | CmdEvent.issue => counterIncrement v
  | CmdEvent.settle k => if finalizeRuns k then counterDecrement v else v

/-- Interest counter after an interleaved trace of `sendCommand`
lifecycle events. -/
def interestAfter (tr : List CmdEvent) (v : Int) : Int :=
  tr.foldl interestStep v

/-- Number of issued calls in a trace. -/
def issueCount (tr : List CmdEvent) : Nat := tr.countP isIssue

/-- Number of settled calls in a trace. -/
def settleCount (tr : List CmdEvent) : Nat := tr.countP (fun e => !(isIssue e))

/-- Pending lists of reachable states hold only the two descriptors the
`BinaryTransitionSubject` constructor builds. -/
def pendingWF (l : List BinaryTransitionDescription) : Prop :=
  ∀ d ∈ l, d = activateTransition ∨ d = deactivateTransition

theorem applyPermOp_rejected (op : PermOp) :
    applyPermOp AttachPermission.REJECTED op = AttachPermission.REJECTED := by
  cases op <;> rfl

theorem rejectPermission_fst (p : AttachPermission) :
    (rejectPermission p).1 = AttachPermission.REJECTED := by
  cases p <;> rfl

theorem ruleC_attachState (s : SysState) : (ruleC s).attachState = s.attachState := by
  unfold ruleC
  split
  · rfl
  · split <;> rfl

theorem ruleC_pendingAttach (s : SysState) : (ruleC s).pendingAttach = s.pendingAttach := by
  unfold ruleC
  split
  · rfl
  · split <;> rfl

/-- Core shape of `applyRules`: whatever the stimulus was, Rule C runs
last, and its non-`IS_ACTIVE` branch forces the web audio subject to
`IS_INACTIVE`. -/
theorem applyRules_stream_imp_attach (s : SysState) :
    (applyRules s).webAudioEventState = BinaryTransition.IS_ACTIVE →
    (applyRules s).attachState = BinaryTransition.IS_ACTIVE := by
  unfold applyRules ruleC
  split
  · next h => intro _; exact h.1
  · split
    · next h => intro _; exact h
    · intro h; exact absurd h (by simp)

theorem foldl_stream_imp_attach (es : List Event) :
    ∀ s : SysState,
      (es.foldl (fun t e => stepEvent e t) (applyRules s)).webAudioEventState
          = BinaryTransition.IS_ACTIVE →
      (es.foldl (fun t e => stepEvent e t) (applyRules s)).attachState
          = BinaryTransition.IS_ACTIVE := by
  induction es with
  | nil => intro s; exact applyRules_stream_imp_attach s
  | cons e t ih =>
      intro s
      have hfold :
          (e :: t).foldl (fun x y => stepEvent y x) (applyRules s)
            = t.foldl (fun x y => stepEvent y x)
                (applyRules (applyEvent e (applyRules s))) := rfl
      rw [hfold]
      exact ih (applyEvent e (applyRules s))

theorem pendingWF_eraseIdx (l : List BinaryTransitionDescription) (i : Nat)
    (h : pendingWF l) : pendingWF (l.eraseIdx i) :=
  fun d hd => h d ((List.eraseIdx_sublist l i).subset hd)

theorem transitionStart_pendingWF (d : BinaryTransitionDescription)
    (cur : BinaryTransition) (p : List BinaryTransitionDescription)
    (hd : d = activateTransition ∨ d = deactivateTransition)
    (hp : pendingWF p) : pendingWF (transitionStart d cur p).2 := by
  unfold transitionStart
  split
  · intro x hx
    rcases List.mem_append.mp hx with h1 | h2
    · exact hp x h1
    · have hxd := List.mem_singleton.mp h2
      subst hxd
      exact hd
  · exact hp

theorem ruleA_pendingWF (s : SysState) (h : pendingWF s.pendingAttach) :
    pendingWF (ruleA s).pendingAttach := by
  unfold ruleA
  split
  · exact transitionStart_pendingWF _ _ _ (Or.inl rfl) h
  · exact transitionStart_pendingWF _ _ _ (Or.inr rfl) h

theorem onDetachHandler_pendingAttach (reason : String) (s : SysState) :
    (onDetachHandler reason s).pendingAttach = s.pendingAttach := by
  by_cases hr : reason = "canceled_by_user" <;> simp [onDetachHandler, hr]

theorem applyEvent_pendingWF (e : Event) (s : SysState)
    (h : pendingWF s.pendingAttach) : pendingWF (applyEvent e s).pendingAttach := by
  cases e with
  | grant => exact h
  | reject => exact h
  | incAttach => exact h
  | decAttach => exact h
  | incWebAudio => exact h
  | decWebAudio => exact h
  | detach reason =>
      have : (applyEvent (Event.detach reason) s).pendingAttach = s.pendingAttach :=
        onDetachHandler_pendingAttach reason s
      rw [this]; exact h
  | completeAttach i o =>
      rcases hg : s.pendingAttach[i]? with _ | d
      · simpa [applyEvent, hg] using h
      · rcases hc : completeEmission d o s.attachState with _ | st
        · simp only [applyEvent, hg, hc]
          exact pendingWF_eraseIdx _ _ h
        · cases st with
          | none =>
              simp only [applyEvent, hg, hc]
              exact pendingWF_eraseIdx _ _ h
          | some st =>
              simp only [applyEvent, hg, hc]
              exact pendingWF_eraseIdx _ _ h
  | completeWebAudio i o =>
      rcases hg : s.pendingWebAudio[i]? with _ | d
      · simpa [applyEvent, hg] using h
      · rcases hc : completeEmission d o s.webAudioEventState with _ | st
        · simp only [applyEvent, hg, hc]
          exact h
        · cases st with
          | none =>
              simp only [applyEvent, hg, hc]
              exact h
          | some st =>
              simp only [applyEvent, hg, hc]
              exact h

theorem stepEvent_pendingWF (e : Event) (s : SysState)
    (h : pendingWF s.pendingAttach) : pendingWF (stepEvent e s).pendingAttach := by
  show pendingWF (ruleC (ruleA (applyEvent e s))).pendingAttach
  rw [ruleC_pendingAttach]
  exact ruleA_pendingWF _ (applyEvent_pendingWF e s h)

theorem runEvents_pendingWF (es : List Event) : pendingWF (runEvents es).pendingAttach := by
  have hinit : pendingWF initSysState.pendingAttach := by
    show pendingWF (ruleC (ruleA sysStart)).pendingAttach
    rw [ruleC_pendingAttach]
    exact ruleA_pendingWF _ (fun d hd => absurd hd (List.not_mem_nil d))
  have main : ∀ (l : List Event) (s : SysState), pendingWF s.pendingAttach →
      pendingWF ((l.foldl (fun t e => stepEvent e t) s)).pendingAttach := by
    intro l
    induction l with
    | nil => intro s h; exact h
    | cons e t ih => intro s h; exact ih _ (stepEvent_pendingWF e s h)
  exact main es initSysState hinit

theorem applyRules_attach_of_inactive (s : SysState)
    (h : s.attachState = BinaryTransition.IS_INACTIVE) :
    (applyRules s).attachState ≠ BinaryTransition.IS_ACTIVE := by
  show (ruleC (ruleA s)).attachState ≠ BinaryTransition.IS_ACTIVE
  rw [ruleC_attachState]
  unfold ruleA
  split
  · show (transitionStart activateTransition s.attachState s.pendingAttach).1 ≠ _
    rw [h]
    simp [transitionStart, activateTransition]
  · show (transitionStart deactivateTransition s.attachState s.pendingAttach).1 ≠ _
    rw [h]
    simp [transitionStart, deactivateTransition]

theorem sendCommandRuns_of_mem (states : List BinaryTransition)
    (h : BinaryTransition.IS_ACTIVE ∈ states) : sendCommandRuns states = 1 := by
  induction states with
  | nil => cases h
  | cons x xs ih =>
      by_cases hx : x = BinaryTransition.IS_ACTIVE
      · subst hx
        simp [sendCommandRuns, sendCommandPipe, isActiveState]
      · have hmem : BinaryTransition.IS_ACTIVE ∈ xs := by
          rcases List.mem_cons.mp h with h1 | h2
          · exact absurd h1.symm hx
          · exact h2
        have hxf : isActiveState x = false := by
          simp [isActiveState, hx]
        have : sendCommandRuns (x :: xs) = sendCommandRuns xs := by
          simp [sendCommandRuns, sendCommandPipe, List.filter_cons, hxf]
        rw [this]
        exact ih hmem

theorem interestAfter_shift (tr : List CmdEvent) :
    ∀ v : Int, interestAfter tr v = v + (issueCount tr : Int) - (settleCount tr : Int) := by
  induction tr with
  | nil => intro v; simp [interestAfter, issueCount, settleCount]
  | cons e t ih =>
      intro v
      have hfold : interestAfter (e :: t) v = interestAfter t (interestStep v e) := rfl
      rw [hfold, ih]
      cases e with
      | issue =>
          simp only [interestStep, counterIncrement, issueCount, settleCount,
            List.countP_cons, isIssue, Bool.not_true]
          simp only [show ((false = true) = False) from by simp,
            show ((true = true) = True) from by simp, if_true, if_false]
          push_cast
          ring
      | settle k =>
          simp only [interestStep, finalizeRuns, if_true, counterDecrement,
            issueCount, settleCount, List.countP_cons, isIssue, Bool.not_false]
          simp only [show ((false = true) = False) from by simp,
            show ((true = true) = True) from by simp, if_true, if_false]
          push_cast
          ring

/-- C1: for every reachable combination of the two controllers' states
under any sequence of operations (grant/reject, interest
increments/decrements, external detach notifications, and asynchronous
action completions or failures), if the web-audio-event stream
controller's state is `IS_ACTIVE` then the attachment controller's state
is `IS_ACTIVE`. -/
theorem debugger_stream_active_implies_attach_active (es : List Event)
    (h : (runEvents es).webAudioEventState = BinaryTransition.IS_ACTIVE) :
    (runEvents es).attachState = BinaryTransition.IS_ACTIVE :=
  foldl_stream_imp_attach es sysStart h

/-- Witness for C1: a run that attaches and then enables web audio events
reaches stream `IS_ACTIVE`, and the theorem yields attach `IS_ACTIVE`. -/
theorem debugger_stream_active_implies_attach_active_witness :
    (runEvents [Event.grant, Event.incAttach, Event.completeAttach 0 ActionOutcome.success,
        Event.incWebAudio, Event.completeWebAudio 0 ActionOutcome.success]).webAudioEventState
      = BinaryTransition.IS_ACTIVE ∧
    (runEvents [Event.grant, Event.incAttach, Event.completeAttach 0 ActionOutcome.success,
        Event.incWebAudio, Event.completeWebAudio 0 ActionOutcome.success]).attachState
      = BinaryTransition.IS_ACTIVE :=
  ⟨by decide, debugger_stream_active_implies_attach_active _ (by decide)⟩

/-- C2: the claim states that when an action fails with a generic error
and the state is no longer `intermediateState`, the state is left
untouched.  The code instead emits `description.beginningState`
(line 435): for a deactivation whose state was forced to `IS_INACTIVE`
while its detach action was in flight, a generic failure sets the state
back to `IS_ACTIVE`, resurrecting a force-overridden state. -/
theorem generic_failure_emits_beginning_state_at_forced_state :
    completeEmission deactivateTransition
        (ActionOutcome.failure { message := some "boom" }) BinaryTransition.IS_INACTIVE
      = some (some BinaryTransition.IS_ACTIVE) := by decide

/-- C3 counterexample: after `grant` and `incAttach` an activation is in
flight; an external detach forces the state to `IS_INACTIVE`, whereupon
Rule A immediately re-enters `ACTIVATING` (spawning a second attach
action).  When the first, stale activation action then completes
successfully, the completion-time guard sees `ACTIVATING` and sets the
state to `IS_ACTIVE` — so a force-transition during a pending activation
does not by itself prevent that activation's success from reaching
`IS_ACTIVE`. -/
theorem stale_activation_success_sets_active_after_force :
    (runEvents [Event.grant, Event.incAttach]).attachState = BinaryTransition.ACTIVATING ∧
    (runEvents [Event.grant, Event.incAttach]).pendingAttach = [activateTransition] ∧
    (runEvents [Event.grant, Event.incAttach,
        Event.detach "target_closed"]).pendingAttach
      = [activateTransition, activateTransition] ∧
    (runEvents [Event.grant, Event.incAttach, Event.detach "target_closed",
        Event.completeAttach 0 ActionOutcome.success]).attachState
      = BinaryTransition.IS_ACTIVE := by decide

/-- C3 as amended: if a force-transition to `IS_INACTIVE` occurred while
an activation's action is pending and the state is still `IS_INACTIVE`
when that action completes successfully (no new activation has re-entered
the intermediate state in between), the stale success is discarded by the
completion-time guard and the state is not set to `IS_ACTIVE`. -/
theorem stale_success_discarded_when_state_still_inactive (es : List Event) (i : Nat)
    (h : (runEvents es).attachState = BinaryTransition.IS_INACTIVE) :
    (stepEvent (Event.completeAttach i ActionOutcome.success) (runEvents es)).attachState
      ≠ BinaryTransition.IS_ACTIVE := by
  have hwf := runEvents_pendingWF es
  have ht : (applyEvent (Event.completeAttach i ActionOutcome.success)
      (runEvents es)).attachState = BinaryTransition.IS_INACTIVE := by
    rcases hg : (runEvents es).pendingAttach[i]? with _ | d
    · simp only [applyEvent, hg]
      exact h
    · have hd := hwf d (List.getElem?_mem hg)
      have hne : ¬((runEvents es).attachState = d.intermediateState) := by
        rcases hd with rfl | rfl <;> rw [h] <;>
          simp [activateTransition, deactivateTransition]
      simp only [applyEvent, hg, completeEmission, if_neg hne]
      exact h
  exact applyRules_attach_of_inactive _ ht

/-- Witness for the amended C3: activation pending, interest dropped, then
an external detach forces `IS_INACTIVE` (Rule A does not reactivate since
interest is 0); completing the stale activation leaves the state away from
`IS_ACTIVE`. -/
theorem stale_success_discarded_when_state_still_inactive_witness :
    (runEvents [Event.grant, Event.incAttach, Event.decAttach,
        Event.detach "target_closed"]).attachState = BinaryTransition.IS_INACTIVE ∧
    (stepEvent (Event.completeAttach 0 ActionOutcome.success)
        (runEvents [Event.grant, Event.incAttach, Event.decAttach,
          Event.detach "target_closed"])).attachState ≠ BinaryTransition.IS_ACTIVE :=
  ⟨by decide, stale_success_discarded_when_state_still_inactive _ 0 (by decide)⟩

/-- C4: once the permission value is `REJECTED` it never changes under any
sequence of `grantTemporary`/`reject` calls; `grantTemporary` sets
`TEMPORARY` (and emits) iff the current value is `UNKNOWN` and is a no-op
otherwise; `reject` sets `REJECTED` (and emits) iff the current value is
not already `REJECTED`. -/
theorem permission_gate_semantics :
    (∀ ops : List PermOp,
      runPermOps ops AttachPermission.REJECTED = AttachPermission.REJECTED) ∧
    grantTemporary AttachPermission.UNKNOWN = (AttachPermission.TEMPORARY, true) ∧
    (∀ p, p ≠ AttachPermission.UNKNOWN → grantTemporary p = (p, false)) ∧
    (∀ p, p ≠ AttachPermission.REJECTED →
      rejectPermission p = (AttachPermission.REJECTED, true)) ∧
    rejectPermission AttachPermission.REJECTED = (AttachPermission.REJECTED, false) := by
  refine ⟨?_, rfl, ?_, ?_, rfl⟩
  · intro ops
    induction ops with
    | nil => rfl
    | cons op t ih =>
        have hfold : runPermOps (op :: t) AttachPermission.REJECTED
            = runPermOps t (applyPermOp AttachPermission.REJECTED op) := rfl
        rw [hfold, applyPermOp_rejected]
        exact ih
  · intro p hp
    cases p
    · exact absurd rfl hp
    · rfl
    · rfl
  · intro p hp
    cases p
    · rfl
    · rfl
    · exact absurd rfl hp

/-- Witness for C4 at concrete permission values. -/
theorem permission_gate_semantics_witness :
    grantTemporary AttachPermission.REJECTED = (AttachPermission.REJECTED, false) ∧
    rejectPermission AttachPermission.UNKNOWN = (AttachPermission.REJECTED, true) :=
  ⟨permission_gate_semantics.2.2.1 AttachPermission.REJECTED (by decide),
   permission_gate_semantics.2.2.2.1 AttachPermission.UNKNOWN (by decide)⟩

/-- C5: on every combined snapshot, the attachment-governing subscription
invokes `activate()` exactly when permission is `TEMPORARY` and
`attachInterest > 0`, and invokes `deactivate()` in every other case. -/
theorem govern_attach_iff_permission_and_interest (s : SysState) :
    (governAttach s = AttachVerb.activate ↔
      (s.permission = AttachPermission.TEMPORARY ∧ 0 < s.attachInterest)) ∧
    (governAttach s = AttachVerb.deactivate ↔
      ¬(s.permission = AttachPermission.TEMPORARY ∧ 0 < s.attachInterest)) := by
  unfold governAttach
  by_cases hc : s.permission = AttachPermission.TEMPORARY ∧ 0 < s.attachInterest <;>
    simp [hc]

/-- C6: a failure whose message starts with the recoverable
already-attached text while the state is still the transition's `intermediateState`
emits `successState`, exactly as a successful completion would. -/
theorem already_attached_failure_treated_as_success
    (d : BinaryTransitionDescription) (err : JsError) (m : String)
    (hm : err.message = some m)
    (hpre : messageIndicatesAlreadyAttached m = true) :
    completeEmission d (ActionOutcome.failure err) d.intermediateState
        = some (some d.successState) ∧
    completeEmission d (ActionOutcome.failure err) d.intermediateState
        = completeEmission d ActionOutcome.success d.intermediateState := by
  simp [completeEmission, hm, hpre]

/-- Witness for C6: an activation failing with the exact
already-attached message while `ACTIVATING` resolves to `IS_ACTIVE`. -/
theorem already_attached_failure_treated_as_success_witness :
    completeEmission activateTransition
        (ActionOutcome.failure { message := some alreadyAttachedMessage })
        activateTransition.intermediateState
      = some (some activateTransition.successState) :=
  (already_attached_failure_treated_as_success activateTransition
      { message := some alreadyAttachedMessage } alreadyAttachedMessage rfl (by decide)).1

/-- C7 counterexample: two `sendCommand` calls are pending (subscribed at
positions 0 and 1, both before `IS_ACTIVE` is reached at position 2).  The
claim predicts the earlier pending request is dropped (`[0, 1]` runs);
the code runs each call's action once (`[1, 1]`): every call owns a fresh
`filter`/`take(1)`/`exhaustMap` pipeline, so nothing is collapsed across
calls. -/
theorem pending_send_command_calls_not_collapsed :
    pendingCallRuns
        [BinaryTransition.IS_INACTIVE, BinaryTransition.ACTIVATING,
          BinaryTransition.IS_ACTIVE] [0, 1]
      = [1, 1] := by decide

/-- C7 as amended: pending `sendCommand` calls are independent, not
collapsed — every pending call whose subscription sees `IS_ACTIVE`
executes its action exactly once when `IS_ACTIVE` is reached, regardless
of other pending calls. -/
theorem each_pending_send_command_runs_once_when_active
    (emissions : List BinaryTransition) (i : Nat)
    (h : BinaryTransition.IS_ACTIVE ∈ emissions.drop i) :
    sendCommandRuns (emissions.drop i) = 1 :=
  sendCommandRuns_of_mem _ h

/-- Witness for the amended C7 at the counterexample's emission trace. -/
theorem each_pending_send_command_runs_once_when_active_witness :
    sendCommandRuns
        (List.drop 0 [BinaryTransition.IS_INACTIVE, BinaryTransition.ACTIVATING,
          BinaryTransition.IS_ACTIVE]) = 1 :=
  each_pending_send_command_runs_once_when_active _ 0 (by decide)

/-- C8: `sendCommand` increments the attach interest counter once at
issue time and the `finalize` callback decrements it once on every kind
of settlement (completion, error, or unsubscription), so any trace in
which every issued call settles exactly once returns the counter to its
starting value. -/
theorem send_command_interest_balanced :
    (∀ k : SettleKind, finalizeRuns k = true) ∧
    ∀ (tr : List CmdEvent) (v : Int), issueCount tr = settleCount tr →
      interestAfter tr v = v := by
  refine ⟨fun _ => rfl, ?_⟩
  intro tr v h
  rw [interestAfter_shift]
  omega

/-- Witness for C8: two overlapping calls, one erroring and one
completing, leave the counter at its starting value. -/
theorem send_command_interest_balanced_witness :
    interestAfter [CmdEvent.issue, CmdEvent.issue, CmdEvent.settle SettleKind.erred,
      CmdEvent.settle SettleKind.completed] 5 = 5 :=
  send_command_interest_balanced.2 _ 5 (by decide)

/-- C9 counterexample: a failure value lacking a `message` field does not
terminate the failure-handling path normally — `err.message.startsWith`
throws inside `catchError`, so no state value is set and the error
escapes the subscription (result convention `none`). -/
theorem failure_without_message_crashes_handler :
    completeEmission activateTransition (ActionOutcome.failure { message := none })
        BinaryTransition.ACTIVATING = none := rfl

/-- C9 as amended: for every failure value that carries a message string,
the failure-handling path terminates normally — it produces `EMPTY` or
emits a state value, and any emitted state is one of the transition's
`successState`, `errorState` or `beginningState` (because of the
line-435 `beginningState` emission recorded in C2, the worst outcome is
not always `errorState`/INACTIVE).  Only message-less failure values
escape the handler. -/
theorem failure_with_message_terminates_normally
    (d : BinaryTransitionDescription) (err : JsError) (m : String)
    (cur : BinaryTransition) (hm : err.message = some m) :
    (completeEmission d (ActionOutcome.failure err) cur).isSome = true ∧
    ∀ st : BinaryTransition,
      completeEmission d (ActionOutcome.failure err) cur = some (some st) →
      st = d.successState ∨ st = d.errorState ∨ st = d.beginningState := by
  simp only [completeEmission, hm]
  split
  · constructor
    · simp
    · intro st hst
      by_cases hcur : cur = d.intermediateState
      · rw [if_pos hcur] at hst
        simp at hst
        exact Or.inl hst.symm
      · rw [if_neg hcur] at hst
        simp at hst
  · constructor
    · simp
    · intro st hst
      by_cases hcur : cur = d.intermediateState
      · rw [if_pos hcur] at hst
        simp at hst
        exact Or.inr (Or.inl hst.symm)
      · rw [if_neg hcur] at hst
        simp at hst
        exact Or.inr (Or.inr hst.symm)

/-- Witness for the amended C9 at a concrete generic error: the handler
terminates and the emitted state is one of the three descriptor states. -/
theorem failure_with_message_terminates_normally_witness :
    (completeEmission activateTransition
        (ActionOutcome.failure { message := some "network error" })
        BinaryTransition.ACTIVATING).isSome = true ∧
    ∀ st : BinaryTransition,
      completeEmission activateTransition
          (ActionOutcome.failure { message := some "network error" })
          BinaryTransition.ACTIVATING = some (some st) →
      st = activateTransition.successState ∨ st = activateTransition.errorState ∨
        st = activateTransition.beginningState :=
  failure_with_message_terminates_normally activateTransition
    { message := some "network error" } "network error" BinaryTransition.ACTIVATING rfl

/-- C10: an external detach notification with any reason other than
`canceled_by_user` forces the attach state to `IS_INACTIVE` and leaves
the permission value unchanged; the `canceled_by_user` reason
additionally sets permission to `REJECTED`. -/
theorem detach_reason_effects (s : SysState) (reason : String) :
    (reason ≠ "canceled_by_user" →
      (onDetachHandler reason s).permission = s.permission ∧
      (onDetachHandler reason s).attachState = BinaryTransition.IS_INACTIVE) ∧
    ((onDetachHandler "canceled_by_user" s).permission = AttachPermission.REJECTED ∧
      (onDetachHandler "canceled_by_user" s).attachState = BinaryTransition.IS_INACTIVE) := by
  constructor
  · intro hr
    constructor <;> simp [onDetachHandler, hr]
  · constructor
    · simp [onDetachHandler, rejectPermission_fst]
    · simp [onDetachHandler]

/-- Witness for C10 at a concrete non-cancellation reason. -/
theorem detach_reason_effects_witness :
    (onDetachHandler "target_closed" initSysState).permission = initSysState.permission ∧
    (onDetachHandler "target_closed" initSysState).attachState
      = BinaryTransition.IS_INACTIVE :=
  (detach_reason_effects initSysState "target_closed").1 (by decide)
